import Mathlib

/-!
Verification of the Sudanese Möbius strip curvature pipeline.

The development shallowly embeds the Python sources:
* `src/sudanese_mobius/parameters.py` — `GridParameters` and the linspace grids,
* `src/sudanese_mobius/S3_parameterization.py` — `mobius_strip_s3`,
* `src/sudanese_mobius/stereo_projection.py` — `stereographic_projection`,
* `src/sudanese_mobius/curvature.py` — `gaussian_curvature_S3`, `comp_curve_data`,
* `sudanese_mobius_curvature.py` — the standalone script
  (`param_uv`, `stereoproj`, `curvature_comp`, `singularity_check`, `__main__`).

Floating-point arithmetic is idealized as exact arithmetic: the
finite-difference layer is generic over a `Field` (instantiated at `ℚ` for
concrete evaluations and at `ℝ` inside the geometric pipeline), and the
geometric pipeline itself works over `ℝ` with `Real.sqrt`, `Real.cos`,
`Real.sin` in place of their NumPy counterparts.
-/

/-- A scalar field sampled on an `m × n` grid (axis 0 = `u`, axis 1 = `v`,
matching `np.meshgrid(..., indexing='ij')` in the sources). -/
abbrev Grid (m n : ℕ) (K : Type) := Fin m → Fin n → K

/-- A `d`-component vector field sampled on an `m × n` grid
(a NumPy array of shape `(m, n, d)`). -/
abbrev VGrid (m n d : ℕ) (K : Type) := Fin m → Fin n → Fin d → K

/-- One-dimensional `np.gradient(f, h, edge_order=2)` with uniform spacing `h`:
second-order central differences at interior points and the second-order
one-sided stencils `(-3f₀+4f₁-f₂)/(2h)` and `(3f_{m-1}-4f_{m-2}+f_{m-3})/(2h)`
at the two boundary points. -/
def npgrad {K : Type} [Field K] {m : ℕ} (f : Fin m → K) (h : K) : Fin m → K :=
  fun i =>
    let g : ℕ → K := fun j => if hj : j < m then f ⟨j, hj⟩ else 0
    if i.val = 0 then (-3 * g 0 + 4 * g 1 - g 2) / (2 * h)
    else if i.val = m - 1 then (3 * g (m - 1) - 4 * g (m - 2) + g (m - 3)) / (2 * h)
    else (g (i.val + 1) - g (i.val - 1)) / (2 * h)

/-- `np.gradient(f, h, axis=0, edge_order=2)` on a 2-D scalar grid. -/
def gradU {K : Type} [Field K] {m n : ℕ} (f : Grid m n K) (h : K) : Grid m n K :=
  fun i j => npgrad (fun i2 => f i2 j) h i

/-- `np.gradient(f, h, axis=1, edge_order=2)` on a 2-D scalar grid. -/
def gradV {K : Type} [Field K] {m n : ℕ} (f : Grid m n K) (h : K) : Grid m n K :=
  fun i j => npgrad (fun j2 => f i j2) h j

/-- `np.gradient(x, h, axis=0, edge_order=2)` on an array of shape `(m, n, d)`:
the stencil acts componentwise on the trailing axis. -/
def vgradU {K : Type} [Field K] {m n d : ℕ} (x : VGrid m n d K) (h : K) : VGrid m n d K :=
  fun i j k => npgrad (fun i2 => x i2 j k) h i

/-- `np.gradient(x, h, axis=1, edge_order=2)` on an array of shape `(m, n, d)`. -/
def vgradV {K : Type} [Field K] {m n d : ℕ} (x : VGrid m n d K) (h : K) : VGrid m n d K :=
  fun i j k => npgrad (fun j2 => x i j2 k) h j

/-- `np.linspace(a, b, n)`: `n` points from `a` to `b` inclusive. -/
noncomputable def linspace (a b : ℝ) (n : ℕ) : Fin n → ℝ :=
  fun i => a + i * ((b - a) / ((n : ℝ) - 1))

/-- `GridParameters` from `parameters.py`: the frozen dataclass of grid bounds,
with its source defaults (`resolution = 201`, `u ∈ [-π/2, π/2]`, `v ∈ [0, 2π]`). -/
structure GridParameters where
  resolution : ℕ := 201
  u_min : ℝ := -0.5 * Real.pi
  u_max : ℝ := 0.5 * Real.pi
  v_min : ℝ := 0
  v_max : ℝ := 2.0 * Real.pi

/-- The `u` property of `GridParameters`: `np.linspace(u_min, u_max, resolution)`. -/
noncomputable def GridParameters.u (p : GridParameters) : Fin p.resolution → ℝ :=
  linspace p.u_min p.u_max p.resolution

/-- The `v` property of `GridParameters`: `np.linspace(v_min, v_max, resolution)`. -/
noncomputable def GridParameters.v (p : GridParameters) : Fin p.resolution → ℝ :=
  linspace p.v_min p.v_max p.resolution

/-- The `RESOLUTION` constant of the standalone script's `__main__` block. -/
def RESOLUTION : ℕ := 200

/-- The fixed rotation of `S3_parameterization.py`:
`R = 0.5 * [[1,-1,-1,-1],[1,1,-1,1],[1,1,1,-1],[1,-1,1,1]]`. -/
noncomputable def R : Matrix (Fin 4) (Fin 4) ℝ :=
  (0.5 : ℝ) • !![1, -1, -1, -1; 1, 1, -1, 1; 1, 1, 1, -1; 1, -1, 1, 1]

/-- The pre-rotation point `x = np.stack([x1, x2, x3, x4], axis=-1)` of
`mobius_strip_s3`, with `x1 = cos u cos v`, `x2 = cos u sin v`,
`x3 = sin u cos(twist·v)`, `x4 = sin u sin(twist·v)`. -/
noncomputable def mobius_prerot (u v twist : ℝ) : Fin 4 → ℝ :=
  ![Real.cos u * Real.cos v,
    Real.cos u * Real.sin v,
    Real.sin u * Real.cos (twist * v),
    Real.sin u * Real.sin (twist * v)]

/-- `mobius_strip_s3(u, v, twist=0.5)` from `S3_parameterization.py`:
the pre-rotation point followed by `x @ R.T`, i.e. `R.mulVec x`. -/
noncomputable def mobius_strip_s3 (u v : ℝ) (twist : ℝ := 0.5) : Fin 4 → ℝ :=
  R.mulVec (mobius_prerot u v twist)

/-- `x[..., :3]`: the first three coordinates of a 4-vector. -/
def firstThree (x : Fin 4 → ℝ) : Fin 3 → ℝ := ![x 0, x 1, x 2]

/-- The fixed display rotation of `stereo_projection.py`:
`[[1,0,0],[0,√2/2,-√2/2],[0,√2/2,√2/2]]`. -/
noncomputable def rot : Matrix (Fin 3) (Fin 3) ℝ :=
  !![1, 0, 0;
     0, Real.sqrt 2 / 2, -(Real.sqrt 2 / 2);
     0, Real.sqrt 2 / 2, Real.sqrt 2 / 2]

/-- `stereographic_projection(x)` from `stereo_projection.py` at one point:
`denom = 1 - x[...,3]`, `c = x[...,:3]/denom`, then `c @ rot.T`, and the
scale field `1/denom`. -/
noncomputable def stereographic_projection (x : Fin 4 → ℝ) : (Fin 3 → ℝ) × ℝ :=
  let denom := 1 - x 3
  let c := fun i => firstThree x i / denom
  (rot.mulVec c, 1 / denom)

/-- `param_uv(u, v, TWIST_PARAMETER=0.5)` from the standalone script: the same
componentwise parameterization and rotation, returned as a 4-tuple. -/
noncomputable def param_uv (u v : ℝ) (TWIST_PARAMETER : ℝ := 0.5) : ℝ × ℝ × ℝ × ℝ :=
  let x_1 := Real.cos u * Real.cos v
  let x_2 := Real.cos u * Real.sin v
  let x_3 := Real.sin u * Real.cos (TWIST_PARAMETER * v)
  let x_4 := Real.sin u * Real.sin (TWIST_PARAMETER * v)
  (1 / 2 * (x_1 - x_2 - x_3 - x_4),
   1 / 2 * (x_1 + x_2 - x_3 + x_4),
   1 / 2 * (x_1 + x_2 + x_3 - x_4),
   1 / 2 * (x_1 - x_2 + x_3 + x_4))

/-- The inner `det3(a, b, c)` helper of `gaussian_curvature_S3`: the 3×3
determinant written out exactly as in the source. -/
def det3 {K : Type} [Field K] (a b c : Fin 3 → K) : K :=
  a 0 * b 1 * c 2 + a 1 * b 2 * c 0 + a 2 * b 0 * c 1
    - a 2 * b 1 * c 0 - a 1 * b 0 * c 2 - a 0 * b 2 * c 1

/-- Selection of three coordinates of a 4-vector, modelling NumPy fancy
indexing such as `x[..., [0, 2, 3]]`. -/
def sel3 {K : Type} (x : Fin 4 → K) (a b c : Fin 4) : Fin 3 → K := ![x a, x b, x c]

/-- `xu = np.gradient(x, du, axis=0, edge_order=2)` in `gaussian_curvature_S3`. -/
noncomputable def S3_xu {m n : ℕ} (x : VGrid m n 4 ℝ) (du : ℝ) : VGrid m n 4 ℝ := vgradU x du

/-- `xv = np.gradient(x, dv, axis=1, edge_order=2)` in `gaussian_curvature_S3`. -/
noncomputable def S3_xv {m n : ℕ} (x : VGrid m n 4 ℝ) (dv : ℝ) : VGrid m n 4 ℝ := vgradV x dv

/-- `xuu = np.gradient(xu, du, axis=0, edge_order=2)` in `gaussian_curvature_S3`. -/
noncomputable def S3_xuu {m n : ℕ} (x : VGrid m n 4 ℝ) (du : ℝ) : VGrid m n 4 ℝ := vgradU (S3_xu x du) du

/-- `xuv = np.gradient(xu, dv, axis=1, edge_order=2)` in `gaussian_curvature_S3`. -/
noncomputable def S3_xuv {m n : ℕ} (x : VGrid m n 4 ℝ) (du dv : ℝ) : VGrid m n 4 ℝ := vgradV (S3_xu x du) dv

/-- `xvv = np.gradient(xv, dv, axis=1, edge_order=2)` in `gaussian_curvature_S3`. -/
noncomputable def S3_xvv {m n : ℕ} (x : VGrid m n 4 ℝ) (dv : ℝ) : VGrid m n 4 ℝ := vgradV (S3_xv x dv) dv

/-- The un-normalized normal `n = np.stack([det3(...), -det3(...), det3(...),
-det3(...)], axis=-1)` of `gaussian_curvature_S3`, written exactly as the
source's four signed minors. -/
noncomputable def S3_nraw {m n : ℕ} (x : VGrid m n 4 ℝ) (du dv : ℝ) (i : Fin m) (j : Fin n) :
    Fin 4 → ℝ :=
  ![det3 (sel3 (x i j) 1 2 3) (sel3 (S3_xu x du i j) 1 2 3) (sel3 (S3_xv x dv i j) 1 2 3),
    -det3 (sel3 (x i j) 0 2 3) (sel3 (S3_xu x du i j) 0 2 3) (sel3 (S3_xv x dv i j) 0 2 3),
    det3 (sel3 (x i j) 0 1 3) (sel3 (S3_xu x du i j) 0 1 3) (sel3 (S3_xv x dv i j) 0 1 3),
    -det3 (sel3 (x i j) 0 1 2) (sel3 (S3_xu x du i j) 0 1 2) (sel3 (S3_xv x dv i j) 0 1 2)]

/-- `n /= np.linalg.norm(n, axis=-1, keepdims=True)` in `gaussian_curvature_S3`. -/
noncomputable def S3_nn {m n : ℕ} (x : VGrid m n 4 ℝ) (du dv : ℝ) (i : Fin m) (j : Fin n) :
    Fin 4 → ℝ :=
  fun k => S3_nraw x du dv i j k / Real.sqrt (∑ l, S3_nraw x du dv i j l ^ 2)

/-- `E = np.sum(xu * xu, axis=-1)` in `gaussian_curvature_S3`. -/
noncomputable def S3_E {m n : ℕ} (x : VGrid m n 4 ℝ) (du : ℝ) (i : Fin m) (j : Fin n) : ℝ :=
  ∑ k, S3_xu x du i j k * S3_xu x du i j k

/-- `F = np.sum(xu * xv, axis=-1)` in `gaussian_curvature_S3`. -/
noncomputable def S3_F {m n : ℕ} (x : VGrid m n 4 ℝ) (du dv : ℝ) (i : Fin m) (j : Fin n) : ℝ :=
  ∑ k, S3_xu x du i j k * S3_xv x dv i j k

/-- `G = np.sum(xv * xv, axis=-1)` in `gaussian_curvature_S3`. -/
noncomputable def S3_G {m n : ℕ} (x : VGrid m n 4 ℝ) (dv : ℝ) (i : Fin m) (j : Fin n) : ℝ :=
  ∑ k, S3_xv x dv i j k * S3_xv x dv i j k

/-- `L = np.sum(xuu * n, axis=-1)` in `gaussian_curvature_S3`. -/
noncomputable def S3_L {m n : ℕ} (x : VGrid m n 4 ℝ) (du dv : ℝ) (i : Fin m) (j : Fin n) : ℝ :=
  ∑ k, S3_xuu x du i j k * S3_nn x du dv i j k

/-- `M = np.sum(xuv * n, axis=-1)` in `gaussian_curvature_S3`. -/
noncomputable def S3_M {m n : ℕ} (x : VGrid m n 4 ℝ) (du dv : ℝ) (i : Fin m) (j : Fin n) : ℝ :=
  ∑ k, S3_xuv x du dv i j k * S3_nn x du dv i j k

/-- `N = np.sum(xvv * n, axis=-1)` in `gaussian_curvature_S3`. -/
noncomputable def S3_N {m n : ℕ} (x : VGrid m n 4 ℝ) (du dv : ℝ) (i : Fin m) (j : Fin n) : ℝ :=
  ∑ k, S3_xvv x dv i j k * S3_nn x du dv i j k

/-- `gaussian_curvature_S3(x, du, dv)` from `curvature.py`: intrinsic Gaussian
curvature in S³, `(L*N - M**2) / denom + 1` with `denom = E*G - F**2`. -/
noncomputable def gaussian_curvature_S3 {m n : ℕ} (x : VGrid m n 4 ℝ) (du dv : ℝ) :
    Grid m n ℝ :=
  fun i j =>
    (S3_L x du dv i j * S3_N x du dv i j - S3_M x du dv i j ^ 2) /
      (S3_E x du i j * S3_G x dv i j - S3_F x du dv i j ^ 2) + 1

/-- The `CurvatureData` dataclass of `curvature.py`. -/
structure CurvatureData (m n : ℕ) where
  mean_curvature : Grid m n ℝ
  gaussian_curvature : Grid m n ℝ
  scale_factor : Grid m n ℝ

/-- `cu = np.gradient(c, du, axis=0, edge_order=2)` in `comp_curve_data`. -/
def module_cu {K : Type} [Field K] {m n : ℕ} (c : VGrid m n 3 K) (du : K) : VGrid m n 3 K :=
  vgradU c du

/-- `cv = np.gradient(c, dv, axis=1, edge_order=2)` in `comp_curve_data`. -/
def module_cv {K : Type} [Field K] {m n : ℕ} (c : VGrid m n 3 K) (dv : K) : VGrid m n 3 K :=
  vgradV c dv

/-- `cuu = np.gradient(cu, du, axis=0, edge_order=2)` in `comp_curve_data`. -/
def module_cuu {K : Type} [Field K] {m n : ℕ} (c : VGrid m n 3 K) (du : K) : VGrid m n 3 K :=
  vgradU (module_cu c du) du

/-- `cuv = np.gradient(cu, dv, axis=1, edge_order=2)` in `comp_curve_data`. -/
def module_cuv {K : Type} [Field K] {m n : ℕ} (c : VGrid m n 3 K) (du dv : K) : VGrid m n 3 K :=
  vgradV (module_cu c du) dv

/-- `cvu = np.gradient(cv, du, axis=1, edge_order=2)` in `comp_curve_data` —
embedded exactly as written in the source: the stencil runs along **axis 1**
(the `v` axis) with spacing `du`. -/
def module_cvu {K : Type} [Field K] {m n : ℕ} (c : VGrid m n 3 K) (du dv : K) : VGrid m n 3 K :=
  vgradV (module_cv c dv) du

/-- `cvv = np.gradient(cv, dv, axis=1, edge_order=2)` in `comp_curve_data`. -/
def module_cvv {K : Type} [Field K] {m n : ℕ} (c : VGrid m n 3 K) (dv : K) : VGrid m n 3 K :=
  vgradV (module_cv c dv) dv

/-- The module's symmetrized mixed partial `xuv = 0.5*(raw_xuv + raw_xvu)`
(per component `k`), with `raw_xuv`/`raw_xvu` taken from `module_cuv`/`module_cvu`. -/
def module_mixed {K : Type} [Field K] {m n : ℕ} (c : VGrid m n 3 K) (du dv : K) :
    VGrid m n 3 K :=
  fun i j k => (1 / 2 : K) * (module_cuv c du dv i j k + module_cvu c du dv i j k)

/-- `nx_org, ny_org, nz_org` of `comp_curve_data`: the componentwise cross
product of `cu` and `cv` (with `xu = cu[...,0]`, `yv = cv[...,1]`, ...). -/
def module_n_org {K : Type} [Field K] {m n : ℕ} (c : VGrid m n 3 K) (du dv : K)
    (i : Fin m) (j : Fin n) : Fin 3 → K :=
  ![module_cu c du i j 1 * module_cv c dv i j 2 - module_cu c du i j 2 * module_cv c dv i j 1,
    module_cu c du i j 2 * module_cv c dv i j 0 - module_cu c du i j 0 * module_cv c dv i j 2,
    module_cu c du i j 0 * module_cv c dv i j 1 - module_cu c du i j 1 * module_cv c dv i j 0]

/-- `norm_n = np.sqrt(nx_org**2 + ny_org**2 + nz_org**2)` in `comp_curve_data`. -/
noncomputable def module_norm_n {m n : ℕ} (c : VGrid m n 3 ℝ) (du dv : ℝ)
    (i : Fin m) (j : Fin n) : ℝ :=
  Real.sqrt (module_n_org c du dv i j 0 ^ 2 + module_n_org c du dv i j 1 ^ 2 +
    module_n_org c du dv i j 2 ^ 2)

/-- `nx = nx_org / norm_n` (and `ny`, `nz`) in `comp_curve_data`. -/
noncomputable def module_nunit {m n : ℕ} (c : VGrid m n 3 ℝ) (du dv : ℝ)
    (i : Fin m) (j : Fin n) : Fin 3 → ℝ :=
  fun k => module_n_org c du dv i j k / module_norm_n c du dv i j

/-- `E = xu**2 + yu**2 + zu**2` in `comp_curve_data`. -/
def module_E {K : Type} [Field K] {m n : ℕ} (c : VGrid m n 3 K) (du : K)
    (i : Fin m) (j : Fin n) : K :=
  module_cu c du i j 0 ^ 2 + module_cu c du i j 1 ^ 2 + module_cu c du i j 2 ^ 2

/-- `F = xu*xv + yu*yv + zu*zv` in `comp_curve_data`. -/
def module_F {K : Type} [Field K] {m n : ℕ} (c : VGrid m n 3 K) (du dv : K)
    (i : Fin m) (j : Fin n) : K :=
  module_cu c du i j 0 * module_cv c dv i j 0 + module_cu c du i j 1 * module_cv c dv i j 1 +
    module_cu c du i j 2 * module_cv c dv i j 2

/-- `G = xv**2 + yv**2 + zv**2` in `comp_curve_data`. -/
def module_G {K : Type} [Field K] {m n : ℕ} (c : VGrid m n 3 K) (dv : K)
    (i : Fin m) (j : Fin n) : K :=
  module_cv c dv i j 0 ^ 2 + module_cv c dv i j 1 ^ 2 + module_cv c dv i j 2 ^ 2

/-- `L = xuu*nx + yuu*ny + zuu*nz` in `comp_curve_data`. -/
noncomputable def module_L {m n : ℕ} (c : VGrid m n 3 ℝ) (du dv : ℝ)
    (i : Fin m) (j : Fin n) : ℝ :=
  module_cuu c du i j 0 * module_nunit c du dv i j 0 +
    module_cuu c du i j 1 * module_nunit c du dv i j 1 +
    module_cuu c du i j 2 * module_nunit c du dv i j 2

/-- `M = xuv*nx + yuv*ny + zuv*nz` in `comp_curve_data`. -/
noncomputable def module_M {m n : ℕ} (c : VGrid m n 3 ℝ) (du dv : ℝ)
    (i : Fin m) (j : Fin n) : ℝ :=
  module_mixed c du dv i j 0 * module_nunit c du dv i j 0 +
    module_mixed c du dv i j 1 * module_nunit c du dv i j 1 +
    module_mixed c du dv i j 2 * module_nunit c du dv i j 2

/-- `N = xvv*nx + yvv*ny + zvv*nz` in `comp_curve_data`. -/
noncomputable def module_N {m n : ℕ} (c : VGrid m n 3 ℝ) (du dv : ℝ)
    (i : Fin m) (j : Fin n) : ℝ :=
  module_cvv c dv i j 0 * module_nunit c du dv i j 0 +
    module_cvv c dv i j 1 * module_nunit c du dv i j 1 +
    module_cvv c dv i j 2 * module_nunit c du dv i j 2

/-- `H = (L*G - 2*M*F + N*E) / (2 * denom)` with `denom = E*G - F**2` in
`comp_curve_data`. -/
noncomputable def module_H {m n : ℕ} (c : VGrid m n 3 ℝ) (du dv : ℝ)
    (i : Fin m) (j : Fin n) : ℝ :=
  (module_L c du dv i j * module_G c dv i j - 2 * module_M c du dv i j * module_F c du dv i j +
      module_N c du dv i j * module_E c du i j) /
    (2 * (module_E c du i j * module_G c dv i j - module_F c du dv i j ^ 2))

/-- `K_R3 = (L*N - M**2) / denom` in `comp_curve_data`. -/
noncomputable def module_K_R3 {m n : ℕ} (c : VGrid m n 3 ℝ) (du dv : ℝ)
    (i : Fin m) (j : Fin n) : ℝ :=
  (module_L c du dv i j * module_N c du dv i j - module_M c du dv i j ^ 2) /
    (module_E c du i j * module_G c dv i j - module_F c du dv i j ^ 2)

/-- `comp_curve_data(c, scale, K_S3, du, dv)` from `curvature.py`: the
extrinsic curvature engine in R³, returning the `CurvatureData` record
(`K_S3` is accepted and unused, exactly as in the source). -/
noncomputable def comp_curve_data {m n : ℕ} (c : VGrid m n 3 ℝ) (scale : Grid m n ℝ)
    (_K_S3 : Grid m n ℝ) (du dv : ℝ) : CurvatureData m n :=
  { mean_curvature := fun i j => module_H c du dv i j
    gaussian_curvature := fun i j => module_K_R3 c du dv i j
    scale_factor := scale }

/-- `stereoproj(x_n1, x_n2, x_n3, x_n4)` from the standalone script. -/
noncomputable def stereoproj (x_n1 x_n2 x_n3 x_n4 : ℝ) : ℝ × ℝ × ℝ :=
  let c_1 := x_n1 / (1 - x_n4)
  let c_2 := x_n2 / (1 - x_n4)
  let c_3 := x_n3 / (1 - x_n4)
  (c_1,
   Real.sqrt 2 / 2 * c_2 - Real.sqrt 2 / 2 * c_3,
   Real.sqrt 2 / 2 * c_2 + Real.sqrt 2 / 2 * c_3)

/-- The script's second `u`-derivative of one coordinate grid:
`xuu` from `np.gradient(xu, du, dv, edge_order=2)` (axis-0 component). -/
def sc_d2u {K : Type} [Field K] {m n : ℕ} (g : Grid m n K) (du : K) : Grid m n K :=
  gradU (gradU g du) du

/-- The script's `raw_xuv`: `np.gradient(xu, du, dv, edge_order=2)`'s axis-1
component, i.e. `∂/∂v(∂g/∂u)` with spacing `dv`. -/
def sc_raw_uv {K : Type} [Field K] {m n : ℕ} (g : Grid m n K) (du dv : K) : Grid m n K :=
  gradV (gradU g du) dv

/-- The script's `raw_xvu`: `np.gradient(xv, du, dv, edge_order=2)`'s axis-0
component, i.e. `∂/∂u(∂g/∂v)` with spacing `du`. -/
def sc_raw_vu {K : Type} [Field K] {m n : ℕ} (g : Grid m n K) (du dv : K) : Grid m n K :=
  gradU (gradV g dv) du

/-- The script's second `v`-derivative of one coordinate grid:
`xvv` from `np.gradient(xv, du, dv, edge_order=2)` (axis-1 component). -/
def sc_d2v {K : Type} [Field K] {m n : ℕ} (g : Grid m n K) (dv : K) : Grid m n K :=
  gradV (gradV g dv) dv

/-- The script's symmetrized mixed partial `xuv = 0.5*(raw_xuv + raw_xvu)`. -/
def sc_mixed {K : Type} [Field K] {m n : ℕ} (g : Grid m n K) (du dv : K) : Grid m n K :=
  fun i j => (1 / 2 : K) * (sc_raw_uv g du dv i j + sc_raw_vu g du dv i j)

/-- `nx_org, ny_org, nz_org` of the script's `curvature_comp`:
`(yu*zv - zu*yv, zu*xv - xu*zv, xu*yv - yu*xv)`. -/
def script_n_org {K : Type} [Field K] {m n : ℕ} (c_n1 c_n2 c_n3 : Grid m n K) (du dv : K)
    (i : Fin m) (j : Fin n) : Fin 3 → K :=
  ![gradU c_n2 du i j * gradV c_n3 dv i j - gradU c_n3 du i j * gradV c_n2 dv i j,
    gradU c_n3 du i j * gradV c_n1 dv i j - gradU c_n1 du i j * gradV c_n3 dv i j,
    gradU c_n1 du i j * gradV c_n2 dv i j - gradU c_n2 du i j * gradV c_n1 dv i j]

/-- `norm_n = np.sqrt(nx_org**2 + ny_org**2 + nz_org**2)` in the script. -/
noncomputable def script_norm_n {m n : ℕ} (c_n1 c_n2 c_n3 : Grid m n ℝ) (du dv : ℝ)
    (i : Fin m) (j : Fin n) : ℝ :=
  Real.sqrt (script_n_org c_n1 c_n2 c_n3 du dv i j 0 ^ 2 +
    script_n_org c_n1 c_n2 c_n3 du dv i j 1 ^ 2 +
    script_n_org c_n1 c_n2 c_n3 du dv i j 2 ^ 2)

/-- `nx = nx_org / norm_n` (and `ny`, `nz`) in the script. -/
noncomputable def script_nunit {m n : ℕ} (c_n1 c_n2 c_n3 : Grid m n ℝ) (du dv : ℝ)
    (i : Fin m) (j : Fin n) : Fin 3 → ℝ :=
  fun k => script_n_org c_n1 c_n2 c_n3 du dv i j k / script_norm_n c_n1 c_n2 c_n3 du dv i j

/-- `E = xu**2 + yu**2 + zu**2` in the script. -/
def script_E {K : Type} [Field K] {m n : ℕ} (c_n1 c_n2 c_n3 : Grid m n K) (du : K)
    (i : Fin m) (j : Fin n) : K :=
  gradU c_n1 du i j ^ 2 + gradU c_n2 du i j ^ 2 + gradU c_n3 du i j ^ 2

/-- `F = xu*xv + yu*yv + zu*zv` in the script. -/
def script_F {K : Type} [Field K] {m n : ℕ} (c_n1 c_n2 c_n3 : Grid m n K) (du dv : K)
    (i : Fin m) (j : Fin n) : K :=
  gradU c_n1 du i j * gradV c_n1 dv i j + gradU c_n2 du i j * gradV c_n2 dv i j +
    gradU c_n3 du i j * gradV c_n3 dv i j

/-- `G = xv**2 + yv**2 + zv**2` in the script. -/
def script_G {K : Type} [Field K] {m n : ℕ} (c_n1 c_n2 c_n3 : Grid m n K) (dv : K)
    (i : Fin m) (j : Fin n) : K :=
  gradV c_n1 dv i j ^ 2 + gradV c_n2 dv i j ^ 2 + gradV c_n3 dv i j ^ 2

/-- `L = xuu*nx + yuu*ny + zuu*nz` in the script. -/
noncomputable def script_L {m n : ℕ} (c_n1 c_n2 c_n3 : Grid m n ℝ) (du dv : ℝ)
    (i : Fin m) (j : Fin n) : ℝ :=
  sc_d2u c_n1 du i j * script_nunit c_n1 c_n2 c_n3 du dv i j 0 +
    sc_d2u c_n2 du i j * script_nunit c_n1 c_n2 c_n3 du dv i j 1 +
    sc_d2u c_n3 du i j * script_nunit c_n1 c_n2 c_n3 du dv i j 2

/-- `M = xuv*nx + yuv*ny + zuv*nz` in the script. -/
noncomputable def script_M {m n : ℕ} (c_n1 c_n2 c_n3 : Grid m n ℝ) (du dv : ℝ)
    (i : Fin m) (j : Fin n) : ℝ :=
  sc_mixed c_n1 du dv i j * script_nunit c_n1 c_n2 c_n3 du dv i j 0 +
    sc_mixed c_n2 du dv i j * script_nunit c_n1 c_n2 c_n3 du dv i j 1 +
    sc_mixed c_n3 du dv i j * script_nunit c_n1 c_n2 c_n3 du dv i j 2

/-- `N = xvv*nx + yvv*ny + zvv*nz` in the script. -/
noncomputable def script_N {m n : ℕ} (c_n1 c_n2 c_n3 : Grid m n ℝ) (du dv : ℝ)
    (i : Fin m) (j : Fin n) : ℝ :=
  sc_d2v c_n1 dv i j * script_nunit c_n1 c_n2 c_n3 du dv i j 0 +
    sc_d2v c_n2 dv i j * script_nunit c_n1 c_n2 c_n3 du dv i j 1 +
    sc_d2v c_n3 dv i j * script_nunit c_n1 c_n2 c_n3 du dv i j 2

/-- `H = (L*G - 2*M*F + N*E) / denom` with `denom = 2*(E*G - F**2)` in the
script. -/
noncomputable def script_H {m n : ℕ} (c_n1 c_n2 c_n3 : Grid m n ℝ) (du dv : ℝ)
    (i : Fin m) (j : Fin n) : ℝ :=
  (script_L c_n1 c_n2 c_n3 du dv i j * script_G c_n1 c_n2 c_n3 dv i j -
      2 * script_M c_n1 c_n2 c_n3 du dv i j * script_F c_n1 c_n2 c_n3 du dv i j +
      script_N c_n1 c_n2 c_n3 du dv i j * script_E c_n1 c_n2 c_n3 du i j) /
    (2 * (script_E c_n1 c_n2 c_n3 du i j * script_G c_n1 c_n2 c_n3 dv i j -
      script_F c_n1 c_n2 c_n3 du dv i j ^ 2))

/-- `K = (L*N - M**2) / (E*G - F**2)` in the script. -/
noncomputable def script_K {m n : ℕ} (c_n1 c_n2 c_n3 : Grid m n ℝ) (du dv : ℝ)
    (i : Fin m) (j : Fin n) : ℝ :=
  (script_L c_n1 c_n2 c_n3 du dv i j * script_N c_n1 c_n2 c_n3 du dv i j -
      script_M c_n1 c_n2 c_n3 du dv i j ^ 2) /
    (script_E c_n1 c_n2 c_n3 du i j * script_G c_n1 c_n2 c_n3 dv i j -
      script_F c_n1 c_n2 c_n3 du dv i j ^ 2)

/-- `curvature_comp(c_n1, c_n2, c_n3, du, dv)` from the standalone script:
returns `(norm_n, E, F, G, H, K)`. -/
noncomputable def curvature_comp {m n : ℕ} (c_n1 c_n2 c_n3 : Grid m n ℝ) (du dv : ℝ) :
    Grid m n ℝ × Grid m n ℝ × Grid m n ℝ × Grid m n ℝ × Grid m n ℝ × Grid m n ℝ :=
  (fun i j => script_norm_n c_n1 c_n2 c_n3 du dv i j,
   fun i j => script_E c_n1 c_n2 c_n3 du i j,
   fun i j => script_F c_n1 c_n2 c_n3 du dv i j,
   fun i j => script_G c_n1 c_n2 c_n3 dv i j,
   fun i j => script_H c_n1 c_n2 c_n3 du dv i j,
   fun i j => script_K c_n1 c_n2 c_n3 du dv i j)

/-- `singularity_check(norm_n, E, F, G, eps=1e-8)` from the standalone script:
raise `ValueError("Unexpected near-zero value in curvature computation")` when
`np.any(norm_n < eps) or np.any(E*G - F**2 < eps)`; embedded as an `Except`. -/
def singularity_check {K : Type} [LinearOrderedField K] {m n : ℕ}
    (norm_n E F G : Grid m n K) (eps : K := 1 / 100000000) : Except String Unit :=
  if (∃ i j, norm_n i j < eps) ∨ (∃ i j, E i j * G i j - F i j ^ 2 < eps) then
    Except.error "Unexpected near-zero value in curvature computation"
  else
    Except.ok ()

/-- Spec-side Euclidean inner product on 3-vectors. -/
noncomputable def dot3 (a b : Fin 3 → ℝ) : ℝ := ∑ k, a k * b k

/-- Spec-side Euclidean inner product on 4-vectors. -/
noncomputable def dot4 (a b : Fin 4 → ℝ) : ℝ := ∑ k, a k * b k

/-- Spec-side cross product `a × b` in R³. -/
noncomputable def cross3 (a b : Fin 3 → ℝ) : Fin 3 → ℝ :=
  ![a 1 * b 2 - a 2 * b 1, a 2 * b 0 - a 0 * b 2, a 0 * b 1 - a 1 * b 0]

/-- Spec-side normalization to unit length in R³: `v / ‖v‖`. -/
noncomputable def unit3 (v : Fin 3 → ℝ) : Fin 3 → ℝ :=
  fun k => v k / Real.sqrt (dot3 v v)

/-- Spec-side normalization to unit length in R⁴: `v / ‖v‖`. -/
noncomputable def unit4 (v : Fin 4 → ℝ) : Fin 4 → ℝ :=
  fun k => v k / Real.sqrt (dot4 v v)

/-- Spec-side generalized cross product in R⁴ (§4.4(a) of the spec): the four
components are the 3×3 minor determinants of the matrix formed from
`x, xu, xv` restricted to each set of three of the four coordinate axes, with
alternating sign. -/
noncomputable def crossS3 (x xu xv : Fin 4 → ℝ) : Fin 4 → ℝ :=
  ![det3 (sel3 x 1 2 3) (sel3 xu 1 2 3) (sel3 xv 1 2 3),
    -det3 (sel3 x 0 2 3) (sel3 xu 0 2 3) (sel3 xv 0 2 3),
    det3 (sel3 x 0 1 3) (sel3 xu 0 1 3) (sel3 xv 0 1 3),
    -det3 (sel3 x 0 1 2) (sel3 xu 0 1 2) (sel3 xv 0 1 2)]

/-- The curvature stage of the standalone script's `__main__` block:
`curvature_comp` followed by `singularity_check`, with `(H, K)` handed to the
consumer (`plot_surface`) only when the check passes. -/
noncomputable def script_pipeline {m n : ℕ} (c_n1 c_n2 c_n3 : Grid m n ℝ) (du dv eps : ℝ) :
    Except String (Grid m n ℝ × Grid m n ℝ) :=
  match curvature_comp c_n1 c_n2 c_n3 du dv with
  | (norm_n, E, F, G, H, K) =>
      (singularity_check norm_n E F G eps).map fun _ => (H, K)


/-- Concrete `norm_n` field (one sample, value `1`) for exercising
`singularity_check`. -/
def exNorm : Grid 1 1 ℚ := fun _ _ => 1

/-- Concrete `E` field (one sample, value `0`). -/
def exE : Grid 1 1 ℚ := fun _ _ => 0

/-- Concrete `F` field (one sample, value `1`). -/
def exF : Grid 1 1 ℚ := fun _ _ => 1

/-- Concrete `G` field (one sample, value `0`). -/
def exG : Grid 1 1 ℚ := fun _ _ => 0

/-- The concrete 3×3 three-component point field `c(i, j) = (i·j, 0, 0)` on
which the module's mixed-partial slip is visible. -/
def exC2 : VGrid 3 3 3 ℚ := fun i j k => if k = 0 then (i.val : ℚ) * (j.val : ℚ) else 0

/-- `np.gradient(·, du, axis=0)` of a stacked 3-component field acts
componentwise: stacking three grids and differentiating equals stacking the
three differentiated grids. -/
theorem vgradU_stack3 {m n : ℕ} (c1 c2 c3 : Grid m n ℝ) (du : ℝ) :
    vgradU (fun a b => ![c1 a b, c2 a b, c3 a b]) du
      = fun i j => ![gradU c1 du i j, gradU c2 du i j, gradU c3 du i j] := by
  funext i j k
  fin_cases k <;> rfl

/-- `np.gradient(·, dv, axis=1)` of a stacked 3-component field acts
componentwise. -/
theorem vgradV_stack3 {m n : ℕ} (c1 c2 c3 : Grid m n ℝ) (dv : ℝ) :
    vgradV (fun a b => ![c1 a b, c2 a b, c3 a b]) dv
      = fun i j => ![gradV c1 dv i j, gradV c2 dv i j, gradV c3 dv i j] := by
  funext i j k
  fin_cases k <;> rfl

/-- A sum of squares over `Fin 4` is the inner product with itself. -/
theorem sumsq4_eq_dot4 (w : Fin 4 → ℝ) : (∑ l, w l ^ 2) = dot4 w w := by
  simp [dot4, Fin.sum_univ_four, pow_two]

set_option maxHeartbeats 1000000 in
/-- C4: for every projected point field `c` and step sizes `du`, `dv`, the
extrinsic engine returns mean curvature `H = (LG - 2MF + NE)/(2(EG - F²))` and
Gaussian curvature `K_R3 = (LN - M²)/(EG - F²)`, where `E, F, G, L, M, N` are
the classical fundamental-form coefficients built from the finite-difference
partials of `c` and the unit normal `n = (c_u × c_v)/‖c_u × c_v‖`.  Stated for
the standalone script's `curvature_comp` (with its symmetrized mixed partial)
and for the module's `comp_curve_data` (with its mixed partial as computed,
`0.5·(cuv + cvu)` of `module_cuv`/`module_cvu`). -/
theorem curvature_engines_mean_gaussian_formulas {m n : ℕ}
    (c1 c2 c3 : Grid m n ℝ) (c : VGrid m n 3 ℝ) (scale K_S3 : Grid m n ℝ)
    (du dv : ℝ) (i : Fin m) (j : Fin n) :
    (letI cu := vgradU (fun i2 j2 => ![c1 i2 j2, c2 i2 j2, c3 i2 j2]) du
     letI cv := vgradV (fun i2 j2 => ![c1 i2 j2, c2 i2 j2, c3 i2 j2]) dv
     letI nvec := unit3 (cross3 (cu i j) (cv i j))
     letI E := dot3 (cu i j) (cu i j)
     letI F := dot3 (cu i j) (cv i j)
     letI G := dot3 (cv i j) (cv i j)
     letI L := dot3 (vgradU cu du i j) nvec
     letI M := dot3 (fun k => 0.5 * (vgradV cu dv i j k + vgradU cv du i j k)) nvec
     letI N := dot3 (vgradV cv dv i j) nvec
     (curvature_comp c1 c2 c3 du dv).2.2.2.2.1 i j
        = (L * G - 2 * M * F + N * E) / (2 * (E * G - F ^ 2)) ∧
     (curvature_comp c1 c2 c3 du dv).2.2.2.2.2 i j
        = (L * N - M ^ 2) / (E * G - F ^ 2)) ∧
    (letI cu := module_cu c du
     letI cv := module_cv c dv
     letI nvec := unit3 (cross3 (cu i j) (cv i j))
     letI E := dot3 (cu i j) (cu i j)
     letI F := dot3 (cu i j) (cv i j)
     letI G := dot3 (cv i j) (cv i j)
     letI L := dot3 (module_cuu c du i j) nvec
     letI M := dot3 (fun k => 0.5 * (module_cuv c du dv i j k + module_cvu c du dv i j k)) nvec
     letI N := dot3 (module_cvv c dv i j) nvec
     (comp_curve_data c scale K_S3 du dv).mean_curvature i j
        = (L * G - 2 * M * F + N * E) / (2 * (E * G - F ^ 2)) ∧
     (comp_curve_data c scale K_S3 du dv).gaussian_curvature i j
        = (L * N - M ^ 2) / (E * G - F ^ 2)) := by
  constructor
  · simp only [vgradU_stack3, vgradV_stack3]
    constructor
    · show script_H c1 c2 c3 du dv i j = _
      simp only [script_H, script_L, script_M, script_N, script_E, script_F, script_G,
        script_nunit, script_norm_n, script_n_org, sc_d2u, sc_d2v, sc_raw_uv, sc_raw_vu,
        sc_mixed, dot3, cross3, unit3, Fin.sum_univ_three,
        Matrix.cons_val_zero, Matrix.cons_val_one, Matrix.head_cons,
        Matrix.cons_val_two, Matrix.tail_cons]
      ring_nf
    · show script_K c1 c2 c3 du dv i j = _
      simp only [script_K, script_L, script_M, script_N, script_E, script_F, script_G,
        script_nunit, script_norm_n, script_n_org, sc_d2u, sc_d2v, sc_raw_uv, sc_raw_vu,
        sc_mixed, dot3, cross3, unit3, Fin.sum_univ_three,
        Matrix.cons_val_zero, Matrix.cons_val_one, Matrix.head_cons,
        Matrix.cons_val_two, Matrix.tail_cons]
      ring_nf
  · constructor
    · show module_H c du dv i j = _
      simp only [module_H, module_L, module_M, module_N, module_E, module_F, module_G,
        module_nunit, module_norm_n, module_n_org, module_mixed, dot3, cross3, unit3,
        Fin.sum_univ_three, Matrix.cons_val_zero, Matrix.cons_val_one, Matrix.head_cons,
        Matrix.cons_val_two, Matrix.tail_cons]
      ring_nf
    · show module_K_R3 c du dv i j = _
      simp only [module_K_R3, module_L, module_M, module_N, module_E, module_F, module_G,
        module_nunit, module_norm_n, module_n_org, module_mixed, dot3, cross3, unit3,
        Fin.sum_univ_three, Matrix.cons_val_zero, Matrix.cons_val_one, Matrix.head_cons,
        Matrix.cons_val_two, Matrix.tail_cons]
      ring_nf

/-- C3: for every S³ point field `x` and step sizes `du`, `dv`, the intrinsic
Gaussian curvature returned by the S³ engine equals `(LN - M²)/(EG - F²) + 1`,
where `E, F, G, L, M, N` are the fundamental-form coefficients built from the
second-order finite-difference partials of `x` and the unit normal is the
generalized cross product `crossS3` (the four signed 3×3 minors of
`(x, x_u, x_v)` with alternating sign) normalized to unit length; the ambient
`+1` is added after the division by `EG - F²`. -/
theorem gaussian_curvature_S3_spec {m n : ℕ} (x : VGrid m n 4 ℝ) (du dv : ℝ)
    (i : Fin m) (j : Fin n) :
    letI xu := vgradU x du
    letI xv := vgradV x dv
    letI nvec := unit4 (crossS3 (x i j) (xu i j) (xv i j))
    letI E := dot4 (xu i j) (xu i j)
    letI F := dot4 (xu i j) (xv i j)
    letI G := dot4 (xv i j) (xv i j)
    letI L := dot4 (vgradU xu du i j) nvec
    letI M := dot4 (vgradV xu dv i j) nvec
    letI N := dot4 (vgradV xv dv i j) nvec
    gaussian_curvature_S3 x du dv i j = (L * N - M ^ 2) / (E * G - F ^ 2) + 1 := by
  have hnraw : S3_nraw x du dv i j
      = crossS3 (x i j) (vgradU x du i j) (vgradV x dv i j) := rfl
  have hnn : S3_nn x du dv i j
      = unit4 (crossS3 (x i j) (vgradU x du i j) (vgradV x dv i j)) := by
    funext k
    show S3_nraw x du dv i j k / Real.sqrt (∑ l, S3_nraw x du dv i j l ^ 2) = _
    rw [sumsq4_eq_dot4, hnraw]
    rfl
  have hE : S3_E x du i j = dot4 (vgradU x du i j) (vgradU x du i j) := rfl
  have hF : S3_F x du dv i j = dot4 (vgradU x du i j) (vgradV x dv i j) := rfl
  have hG : S3_G x dv i j = dot4 (vgradV x dv i j) (vgradV x dv i j) := rfl
  have hL : S3_L x du dv i j = dot4 (vgradU (vgradU x du) du i j)
      (unit4 (crossS3 (x i j) (vgradU x du i j) (vgradV x dv i j))) := by
    show (∑ k, S3_xuu x du i j k * S3_nn x du dv i j k) = _
    rw [hnn]; rfl
  have hM : S3_M x du dv i j = dot4 (vgradV (vgradU x du) dv i j)
      (unit4 (crossS3 (x i j) (vgradU x du i j) (vgradV x dv i j))) := by
    show (∑ k, S3_xuv x du dv i j k * S3_nn x du dv i j k) = _
    rw [hnn]; rfl
  have hN : S3_N x du dv i j = dot4 (vgradV (vgradV x dv) dv i j)
      (unit4 (crossS3 (x i j) (vgradU x du i j) (vgradV x dv i j))) := by
    show (∑ k, S3_xvv x dv i j k * S3_nn x du dv i j k) = _
    rw [hnn]; rfl
  show (S3_L x du dv i j * S3_N x du dv i j - S3_M x du dv i j ^ 2) /
      (S3_E x du i j * S3_G x dv i j - S3_F x du dv i j ^ 2) + 1 = _
  rw [hL, hM, hN, hE, hF, hG]

/-- Componentwise form of `mobius_strip_s3`: applying the rotation `R`
produces exactly the four combinations written out in the standalone script. -/
theorem mobius_strip_s3_apply (u v t : ℝ) :
    mobius_strip_s3 u v t =
      ![1 / 2 * (Real.cos u * Real.cos v - Real.cos u * Real.sin v -
          Real.sin u * Real.cos (t * v) - Real.sin u * Real.sin (t * v)),
        1 / 2 * (Real.cos u * Real.cos v + Real.cos u * Real.sin v -
          Real.sin u * Real.cos (t * v) + Real.sin u * Real.sin (t * v)),
        1 / 2 * (Real.cos u * Real.cos v + Real.cos u * Real.sin v +
          Real.sin u * Real.cos (t * v) - Real.sin u * Real.sin (t * v)),
        1 / 2 * (Real.cos u * Real.cos v - Real.cos u * Real.sin v +
          Real.sin u * Real.cos (t * v) + Real.sin u * Real.sin (t * v))] := by
  funext k
  fin_cases k <;>
    simp [mobius_strip_s3, mobius_prerot, R, Matrix.mulVec, Matrix.dotProduct,
      Fin.sum_univ_four] <;> ring

/-- The pre-rotation point of `mobius_strip_s3` is a unit 4-vector. -/
theorem mobius_prerot_sumsq (u v t : ℝ) : (∑ k, mobius_prerot u v t k ^ 2) = 1 := by
  simp only [mobius_prerot, Fin.sum_univ_four, Matrix.cons_val_zero, Matrix.cons_val_one,
    Matrix.head_cons, Matrix.cons_val_two, Matrix.tail_cons, Matrix.cons_val_three]
  linear_combination Real.cos u ^ 2 * Real.sin_sq_add_cos_sq v +
    Real.sin u ^ 2 * Real.sin_sq_add_cos_sq (t * v) + Real.sin_sq_add_cos_sq u

/-- The rotated point of `mobius_strip_s3` is a unit 4-vector. -/
theorem mobius_unit_sumsq (u v t : ℝ) : (∑ k, mobius_strip_s3 u v t k ^ 2) = 1 := by
  rw [mobius_strip_s3_apply]
  simp only [Fin.sum_univ_four, Matrix.cons_val_zero, Matrix.cons_val_one,
    Matrix.head_cons, Matrix.cons_val_two, Matrix.tail_cons, Matrix.cons_val_three]
  linear_combination Real.cos u ^ 2 * Real.sin_sq_add_cos_sq v +
    Real.sin u ^ 2 * Real.sin_sq_add_cos_sq (t * v) + Real.sin_sq_add_cos_sq u

/-- C5: for every real `u`, `v` and twist `t`, the S³ parameterizer's output
`x' = R·x` has unit Euclidean norm, because the pre-rotation point `x` is a
unit 4-vector and the fixed rotation `R` is orthogonal (`R·Rᵀ = I`), hence
norm-preserving. -/
theorem mobius_strip_s3_unit_norm (u v t : ℝ) :
    Real.sqrt (∑ k, mobius_strip_s3 u v t k ^ 2) = 1 ∧
    (∑ k, mobius_prerot u v t k ^ 2) = 1 ∧
    R * R.transpose = 1 := by
  refine ⟨?_, mobius_prerot_sumsq u v t, ?_⟩
  · rw [mobius_unit_sumsq, Real.sqrt_one]
  · ext i j
    fin_cases i <;> fin_cases j <;>
      simp only [Matrix.mul_apply, Matrix.transpose_apply, Fin.sum_univ_four, R,
        Matrix.smul_apply, Matrix.one_apply, Matrix.of_apply, Matrix.cons_val',
        Matrix.cons_val_zero, Matrix.cons_val_one, Matrix.head_cons, Matrix.cons_val_two,
        Matrix.tail_cons, Matrix.cons_val_three, Matrix.head_fin_const, Matrix.empty_val',
        Matrix.cons_val_fin_one, smul_eq_mul] <;> norm_num [Fin.ext_iff]

set_option maxHeartbeats 1000000 in
/-- For twist `0.5`, no real parameters `(u, v)` at all — in particular no
grid point — can place the rotated point's fourth coordinate at `1`. -/
theorem mobius_twist_half_fourth_ne_one (u v : ℝ) : mobius_strip_s3 u v 0.5 3 ≠ 1 := by
  intro h
  have hx : (∑ k, mobius_prerot u v 0.5 k ^ 2) = 1 := mobius_prerot_sumsq u v 0.5
  simp only [mobius_prerot, Fin.sum_univ_four, Matrix.cons_val_zero, Matrix.cons_val_one,
    Matrix.head_cons, Matrix.cons_val_two, Matrix.tail_cons, Matrix.cons_val_three] at hx
  rw [mobius_strip_s3_apply] at h
  simp only [Matrix.cons_val_three, Matrix.tail_cons, Matrix.head_cons] at h
  set A := Real.cos u with hA
  set B := Real.sin u with hB
  set C := Real.cos v with hC
  set S := Real.sin v with hS
  set c := Real.cos (0.5 * v) with hc
  set s := Real.sin (0.5 * v) with hs
  have hz : (A * C - 1 / 2) ^ 2 + (A * S + 1 / 2) ^ 2 + (B * c - 1 / 2) ^ 2 +
      (B * s - 1 / 2) ^ 2 = 0 := by linear_combination hx - 2 * h
  have q1 : (A * C - 1 / 2) ^ 2 = 0 := by
    linarith [sq_nonneg (A * C - 1 / 2), sq_nonneg (A * S + 1 / 2),
      sq_nonneg (B * c - 1 / 2), sq_nonneg (B * s - 1 / 2)]
  have q3 : (B * c - 1 / 2) ^ 2 = 0 := by
    linarith [sq_nonneg (A * C - 1 / 2), sq_nonneg (A * S + 1 / 2),
      sq_nonneg (B * c - 1 / 2), sq_nonneg (B * s - 1 / 2)]
  have q4 : (B * s - 1 / 2) ^ 2 = 0 := by
    linarith [sq_nonneg (A * C - 1 / 2), sq_nonneg (A * S + 1 / 2),
      sq_nonneg (B * c - 1 / 2), sq_nonneg (B * s - 1 / 2)]
  have e1 : A * C = 1 / 2 := by have q := sq_eq_zero_iff.mp q1; linarith
  have e3 : B * c = 1 / 2 := by have q := sq_eq_zero_iff.mp q3; linarith
  have e4 : B * s = 1 / 2 := by have q := sq_eq_zero_iff.mp q4; linarith
  have hcs : s ^ 2 + c ^ 2 = 1 := Real.sin_sq_add_cos_sq (0.5 * v)
  have h5 : B ^ 2 * c ^ 2 = 1 / 4 := by linear_combination (B * c + 1 / 2) * e3
  have h6 : B ^ 2 * s ^ 2 = 1 / 4 := by linear_combination (B * s + 1 / 2) * e4
  have hB2 : B ^ 2 = 1 / 2 := by linear_combination h5 + h6 - B ^ 2 * hcs
  have hc2 : c ^ 2 = 1 / 2 := by linear_combination 2 * h5 - 2 * c ^ 2 * hB2
  have hCv : C = 2 * c ^ 2 - 1 := by
    rw [hC, hc]
    conv_lhs => rw [show v = 2 * (0.5 * v) from by ring]
    rw [Real.cos_two_mul]
  have hC0 : C = 0 := by linear_combination hCv + 2 * hc2
  rw [hC0, mul_zero] at e1
  norm_num at e1

/-- C8: for twist `0.5`, any resolution at least `50`, and the default domain
`u ∈ [-π/2, π/2]`, `v ∈ [0, 2π]`, no grid point produced by the rotated S³
parameterizer has fourth coordinate exactly `1`, so the stereographic
projector's denominator `1 - x₄` is never exactly zero on the sampled grid. -/
theorem grid_avoids_pole (res : ℕ) (hres : 50 ≤ res) (i j : Fin res) :
    mobius_strip_s3 (({ resolution := res } : GridParameters).u i)
        (({ resolution := res } : GridParameters).v j) 0.5 3 ≠ 1 ∧
    1 - mobius_strip_s3 (({ resolution := res } : GridParameters).u i)
        (({ resolution := res } : GridParameters).v j) 0.5 3 ≠ 0 := by
  constructor
  · exact mobius_twist_half_fourth_ne_one _ _
  · intro h0
    exact mobius_twist_half_fourth_ne_one
      (({ resolution := res } : GridParameters).u i)
      (({ resolution := res } : GridParameters).v j) (by linarith)

/-- Witness for C8 at the concrete resolution `50` and grid corner `(0, 0)`. -/
theorem grid_avoids_pole_witness :
    50 ≤ 50 ∧
    (mobius_strip_s3 (({ resolution := 50 } : GridParameters).u ⟨0, by norm_num⟩)
        (({ resolution := 50 } : GridParameters).v ⟨0, by norm_num⟩) 0.5 3 ≠ 1 ∧
     1 - mobius_strip_s3 (({ resolution := 50 } : GridParameters).u ⟨0, by norm_num⟩)
        (({ resolution := 50 } : GridParameters).v ⟨0, by norm_num⟩) 0.5 3 ≠ 0) :=
  ⟨le_refl 50, grid_avoids_pole 50 (le_refl 50) ⟨0, by norm_num⟩ ⟨0, by norm_num⟩⟩

/-- The display rotation applied to an explicit 3-vector, written out
componentwise as in the standalone script's `stereoproj`. -/
theorem rot_mulVec (a b c : ℝ) :
    rot.mulVec ![a, b, c] = ![a, Real.sqrt 2 / 2 * b - Real.sqrt 2 / 2 * c,
      Real.sqrt 2 / 2 * b + Real.sqrt 2 / 2 * c] := by
  funext k
  fin_cases k <;>
    simp [rot, Matrix.mulVec, Matrix.dotProduct, Fin.sum_univ_three] <;> ring

/-- Dividing the first three coordinates pointwise is the same as the
explicit 3-vector of quotients. -/
theorem div_firstThree (x : Fin 4 → ℝ) (d : ℝ) :
    (fun i => firstThree x i / d) = ![x 0 / d, x 1 / d, x 2 / d] := by
  funext i
  fin_cases i <;> rfl

/-- C7: for every unit 4-vector `x` with `x 3 < 1`, the stereographic
projector returns `c = rot·(x[:3]/(1 - x₃))` and the scale `λ = 1/(1 - x₃)`,
the scale is strictly positive, and the display rotation `rot` is orthogonal. -/
theorem stereographic_projection_formula (x : Fin 4 → ℝ)
    (hunit : (∑ k, x k ^ 2) = 1) (h3 : x 3 < 1) :
    (stereographic_projection x).1 = rot.mulVec (fun i => firstThree x i / (1 - x 3)) ∧
    (stereographic_projection x).2 = 1 / (1 - x 3) ∧
    0 < (stereographic_projection x).2 ∧
    rot * rot.transpose = 1 := by
  have h2 : Real.sqrt 2 * Real.sqrt 2 = 2 := Real.mul_self_sqrt (by norm_num)
  refine ⟨rfl, rfl, ?_, ?_⟩
  · show 0 < 1 / (1 - x 3)
    have hpos : 0 < 1 - x 3 := by linarith
    positivity
  · ext i j
    fin_cases i <;> fin_cases j <;>
      simp only [Matrix.mul_apply, Matrix.transpose_apply, Fin.sum_univ_three, rot,
        Matrix.one_apply, Matrix.of_apply, Matrix.cons_val',
        Matrix.cons_val_zero, Matrix.cons_val_one, Matrix.head_cons, Matrix.cons_val_two,
        Matrix.tail_cons, Matrix.head_fin_const, Matrix.empty_val',
        Matrix.cons_val_fin_one] <;> norm_num [Fin.ext_iff] <;> nlinarith [h2]

/-- Witness for C7 at the concrete unit vector `(1, 0, 0, 0)`. -/
theorem stereographic_projection_formula_witness :
    ((∑ k, (![1, 0, 0, 0] : Fin 4 → ℝ) k ^ 2) = 1 ∧
      (![1, 0, 0, 0] : Fin 4 → ℝ) 3 < 1) ∧
    ((stereographic_projection ![1, 0, 0, 0]).1
        = rot.mulVec (fun i => firstThree ![1, 0, 0, 0] i /
            (1 - (![1, 0, 0, 0] : Fin 4 → ℝ) 3)) ∧
     (stereographic_projection ![1, 0, 0, 0]).2
        = 1 / (1 - (![1, 0, 0, 0] : Fin 4 → ℝ) 3) ∧
     0 < (stereographic_projection ![1, 0, 0, 0]).2 ∧
     rot * rot.transpose = 1) :=
  ⟨⟨by simp [Fin.sum_univ_four], by show (0 : ℝ) < 1; norm_num⟩,
    stereographic_projection_formula ![1, 0, 0, 0] (by simp [Fin.sum_univ_four])
      (by show (0 : ℝ) < 1; norm_num)⟩

/-- C6 (counterexample): at the pole `(0, 0, 0, 1)` the denominator
`1 - x₃` is exactly zero (hence below any `ε ≥ 0` in absolute value), yet the
projector performs no check and returns an ordinary pair of values (the junk
values of exact arithmetic, where division by zero yields zero) instead of
reporting a degenerate condition. -/
theorem stereographic_projection_pole_silent :
    (1 - (![0, 0, 0, 1] : Fin 4 → ℝ) 3) = 0 ∧
    |1 - (![0, 0, 0, 1] : Fin 4 → ℝ) 3| < 1 / 100000000 ∧
    stereographic_projection ![0, 0, 0, 1] = (fun _ => 0, 0) := by
  refine ⟨by show (1 : ℝ) - 1 = 0; norm_num, by show |(1 : ℝ) - 1| < _; norm_num, ?_⟩
  show (rot.mulVec fun i => firstThree ![0, 0, 0, (1 : ℝ)] i /
      (1 - (![0, 0, 0, (1 : ℝ)] : Fin 4 → ℝ) 3), 1 / (1 - (![0, 0, 0, (1 : ℝ)] : Fin 4 → ℝ) 3))
    = (fun _ => 0, 0)
  have hd : (1 : ℝ) - (![0, 0, 0, (1 : ℝ)] : Fin 4 → ℝ) 3 = 0 := by
    show (1 : ℝ) - 1 = 0; norm_num
  rw [Prod.mk.injEq]
  constructor
  · rw [div_firstThree, hd, rot_mulVec]
    funext k
    fin_cases k <;> simp
  · rw [hd]
    simp

/-- C6 (amended): the stereographic projector performs no ε-check at all: for
every input `x` — degenerate points with `|1 - x₃| < ε` included — it returns
the unconditional quotients `c = rot·(x[:3]/(1 - x₃))` and `λ = 1/(1 - x₃)`,
reporting nothing. -/
theorem stereographic_projection_no_check (x : Fin 4 → ℝ) :
    stereographic_projection x
      = (rot.mulVec fun i => firstThree x i / (1 - x 3), 1 / (1 - x 3)) := rfl

/-- C10: the module front end and the standalone script front end agree: the
parameterizers produce identical 4-vectors and the composed stereographic
projections produce identical R³ points, for every `u`, `v` and twist `t`. -/
theorem module_script_front_ends_agree (u v t : ℝ) :
    (mobius_strip_s3 u v t 0 = (param_uv u v t).1 ∧
     mobius_strip_s3 u v t 1 = (param_uv u v t).2.1 ∧
     mobius_strip_s3 u v t 2 = (param_uv u v t).2.2.1 ∧
     mobius_strip_s3 u v t 3 = (param_uv u v t).2.2.2) ∧
    ((stereographic_projection (mobius_strip_s3 u v t)).1 0
        = (stereoproj (param_uv u v t).1 (param_uv u v t).2.1
            (param_uv u v t).2.2.1 (param_uv u v t).2.2.2).1 ∧
     (stereographic_projection (mobius_strip_s3 u v t)).1 1
        = (stereoproj (param_uv u v t).1 (param_uv u v t).2.1
            (param_uv u v t).2.2.1 (param_uv u v t).2.2.2).2.1 ∧
     (stereographic_projection (mobius_strip_s3 u v t)).1 2
        = (stereoproj (param_uv u v t).1 (param_uv u v t).2.1
            (param_uv u v t).2.2.1 (param_uv u v t).2.2.2).2.2) := by
  have h0 : mobius_strip_s3 u v t 0 = (param_uv u v t).1 := by
    rw [mobius_strip_s3_apply]; rfl
  have h1 : mobius_strip_s3 u v t 1 = (param_uv u v t).2.1 := by
    rw [mobius_strip_s3_apply]; rfl
  have h2 : mobius_strip_s3 u v t 2 = (param_uv u v t).2.2.1 := by
    rw [mobius_strip_s3_apply]; rfl
  have h3 : mobius_strip_s3 u v t 3 = (param_uv u v t).2.2.2 := by
    rw [mobius_strip_s3_apply]; rfl
  refine ⟨⟨h0, h1, h2, h3⟩, ?_, ?_, ?_⟩
  · show (rot.mulVec fun i => firstThree (mobius_strip_s3 u v t) i /
        (1 - mobius_strip_s3 u v t 3)) 0 = _
    rw [div_firstThree, rot_mulVec]
    show mobius_strip_s3 u v t 0 / (1 - mobius_strip_s3 u v t 3) = _
    rw [h0, h3]
    rfl
  · show (rot.mulVec fun i => firstThree (mobius_strip_s3 u v t) i /
        (1 - mobius_strip_s3 u v t 3)) 1 = _
    rw [div_firstThree, rot_mulVec]
    show Real.sqrt 2 / 2 * (mobius_strip_s3 u v t 1 / (1 - mobius_strip_s3 u v t 3)) -
        Real.sqrt 2 / 2 * (mobius_strip_s3 u v t 2 / (1 - mobius_strip_s3 u v t 3)) = _
    rw [h1, h2, h3]
    rfl
  · show (rot.mulVec fun i => firstThree (mobius_strip_s3 u v t) i /
        (1 - mobius_strip_s3 u v t 3)) 2 = _
    rw [div_firstThree, rot_mulVec]
    show Real.sqrt 2 / 2 * (mobius_strip_s3 u v t 1 / (1 - mobius_strip_s3 u v t 3)) +
        Real.sqrt 2 / 2 * (mobius_strip_s3 u v t 2 / (1 - mobius_strip_s3 u v t 3)) = _
    rw [h1, h2, h3]
    rfl

/-- C1 (counterexample): with `E*G - F² = -1` (and `norm_n = 1`) the script's
`singularity_check` raises the degeneracy error, although no sampled
metric-determinant or normal-length value is below `ε = 1e-8` in absolute
value: the code compares the signed values, not their absolute values. -/
theorem singularity_check_raises_on_large_negative_det :
    singularity_check exNorm exE exF exG (1 / 100000000)
      = Except.error "Unexpected near-zero value in curvature computation" ∧
    ¬ ((∃ i j : Fin 1, |exNorm i j| < (1 / 100000000 : ℚ)) ∨
       (∃ i j : Fin 1, |exE i j * exG i j - exF i j ^ 2| < (1 / 100000000 : ℚ))) := by
  constructor
  · have hcond : (∃ i j : Fin 1, exNorm i j < (1 / 100000000 : ℚ)) ∨
        (∃ i j : Fin 1, exE i j * exG i j - exF i j ^ 2 < (1 / 100000000 : ℚ)) := by
      right
      exact ⟨0, 0, by norm_num [exE, exF, exG]⟩
    unfold singularity_check
    rw [if_pos hcond]
  · rintro (⟨i, j, h⟩ | ⟨i, j, h⟩) <;> norm_num [exNorm, exE, exF, exG] at h

/-- C1 (amended): the script's guard raises its descriptive degeneracy error
exactly when some sampled `norm_n` value or metric-determinant `E*G - F²`
value is (signed) less than `ε`; and the script's pipeline hands the
curvature fields `(H, K)` to the consumer exactly when the guard, run after
`curvature_comp`, passes. -/
theorem singularity_check_signed_characterization :
    (∀ (K : Type) [LinearOrderedField K], ∀ {m n : ℕ}
        (norm_n E F G : Grid m n K) (eps : K),
      singularity_check norm_n E F G eps
          = Except.error "Unexpected near-zero value in curvature computation"
        ↔ (∃ i j, norm_n i j < eps) ∨ (∃ i j, E i j * G i j - F i j ^ 2 < eps)) ∧
    (∀ {m n : ℕ} (c_n1 c_n2 c_n3 : Grid m n ℝ) (du dv eps : ℝ),
      script_pipeline c_n1 c_n2 c_n3 du dv eps
        = (singularity_check (fun i j => script_norm_n c_n1 c_n2 c_n3 du dv i j)
            (fun i j => script_E c_n1 c_n2 c_n3 du i j)
            (fun i j => script_F c_n1 c_n2 c_n3 du dv i j)
            (fun i j => script_G c_n1 c_n2 c_n3 dv i j) eps).map
            (fun _ => (fun i j => script_H c_n1 c_n2 c_n3 du dv i j,
              fun i j => script_K c_n1 c_n2 c_n3 du dv i j))) := by
  constructor
  · intro K instK m n norm_n E F G eps
    unfold singularity_check
    split_ifs with hcond
    · exact iff_of_true rfl hcond
    · exact iff_of_false (by simp) hcond
  · intro m n c_n1 c_n2 c_n3 du dv eps
    rfl

/-- C2: the module's `comp_curve_data` computes its `raw_xvu` (`module_cvu`)
by running the stencil along **axis 1** (the `v` axis) with spacing `du` —
`np.gradient(cv, du, axis=1)` — instead of along the `u` axis as the claim
(and the standalone script, whose `sc_raw_vu` differentiates along axis 0)
requires.  At the concrete field `exC2` with `du = dv = 1` the module's value
is `0` while `∂/∂u(∂c/∂v) = 1`, so the module's symmetrized mixed partial is
`1/2` where the claim's symmetrization gives `1`. -/
theorem module_mixed_fd_axis_bug :
    (∀ (K : Type) [Field K], ∀ {m n : ℕ} (c : VGrid m n 3 K) (du dv : K),
      module_cvu c du dv = vgradV (module_cv c dv) du) ∧
    (∀ (K : Type) [Field K], ∀ {m n : ℕ} (g : Grid m n K) (du dv : K),
      sc_raw_vu g du dv = gradU (gradV g dv) du) ∧
    module_cvu exC2 1 1 0 0 0 = 0 ∧
    vgradU (module_cv exC2 1) 1 0 0 0 = 1 ∧
    sc_raw_vu (fun i j => exC2 i j 0) 1 1 0 0 = 1 ∧
    module_mixed exC2 1 1 0 0 0 = 1 / 2 ∧
    (1 / 2 : ℚ) * (module_cuv exC2 1 1 0 0 0 + vgradU (module_cv exC2 1) 1 0 0 0) = 1 := by
  refine ⟨fun K instK {m n} c du dv => rfl, fun K instK {m n} g du dv => rfl,
    ?_, ?_, ?_, ?_, ?_⟩ <;>
  · simp only [module_cvu, module_cv, module_cuv, module_cu, module_mixed,
      vgradV, vgradU, sc_raw_vu, gradU, gradV, npgrad, exC2]
    norm_num

/-- C9 (counterexample): a `GridParameters` object constructed with no
arguments has `resolution = 201`, not `200`. -/
theorem default_resolution_not_200 : ({} : GridParameters).resolution ≠ 200 := by decide

/-- C9 (amended): the module's `GridParameters` defaults are
`resolution = 201`, `u ∈ [-π/2, π/2]`, `v ∈ [0, 2π]`; the standalone script's
`RESOLUTION` constant is `200`; the twist parameter defaults to `0.5` in both
parameterizers; and `singularity_check`'s tolerance defaults to `1e-8`. -/
theorem default_configuration_values :
    ({} : GridParameters).resolution = 201 ∧
    ({} : GridParameters).u_min = -0.5 * Real.pi ∧
    ({} : GridParameters).u_max = 0.5 * Real.pi ∧
    ({} : GridParameters).v_min = 0 ∧
    ({} : GridParameters).v_max = 2.0 * Real.pi ∧
    RESOLUTION = 200 ∧
    (∀ u v : ℝ, mobius_strip_s3 u v = mobius_strip_s3 u v 0.5) ∧
    (∀ u v : ℝ, param_uv u v = param_uv u v 0.5) ∧
    (∀ {m n : ℕ} (norm_n E F G : Grid m n ℚ),
      singularity_check norm_n E F G = singularity_check norm_n E F G (1 / 100000000)) := by
  refine ⟨rfl, rfl, rfl, rfl, rfl, rfl, fun u v => rfl, fun u v => rfl, ?_⟩
  intro m n norm_n E F G
  rfl
